import Mathlib

/-!
Verification development for the piwheels coordination plane.

The definitions below are a shallow embedding of the Python sources:
`piwheels/db.py` (the database front-end), `piwheels/slave/__init__.py`
(the slave state machine and file transfer), and — where the repository
ships only the tests of a component — a model built from the
specification (each such definition is marked `Modelled from the spec:`).
SQL result sets are lists of row structures; fallible Python code
(raised exceptions) is embedded as `Option`/`Except`.
-/

namespace PiWheels

/-! ## Database model (piwheels/db.py)

The schema is not part of the sources; the column set is taken from the
queries in `db.py` and the key structure from the spec (section 6:
`packages(package PK, skip bool)`, `metadata(key PK, value)`).  A SQL
`boolean` column is three-valued, hence `Option Bool` for `status`.
-/

structure PkgRow where
  package : String
  attempted : Bool
deriving Repr, DecidableEq

structure BuildRow where
  build_timestamp : Nat
  package : String
  status : Option Bool
  build_time : Nat
  filesize : Nat
deriving Repr, DecidableEq

structure DBState where
  packages : List PkgRow
  builds : List BuildRow
  metadata : List (String × String)
deriving Repr, DecidableEq

/-- `get_package_summary` (db.py lines 34-45):
`COUNT(CASE WHEN status THEN 1 END)`, `COUNT(CASE WHEN NOT status THEN 1 END)`,
`COUNT(*)`.  `COUNT` counts non-NULL values and `CASE` yields NULL unless the
condition is SQL-true, so a NULL `status` is counted by neither branch. -/
def get_package_summary (s : DBState) : Nat × Nat × Nat :=
  ( s.builds.countP (fun r => match r.status with | some true => true | _ => false)
  , s.builds.countP (fun r => match r.status with | some false => true | _ => false)
  , s.builds.length )

/-- Sort used to embed `ORDER BY build_timestamp DESC` (insertion sort,
descending on the timestamp). -/
def sortByTimestampDesc (rows : List BuildRow) : List BuildRow :=
  rows.foldr insertDesc []
where
  insertDesc (r : BuildRow) : List BuildRow → List BuildRow
    | [] => [r]
    | x :: xs =>
      if r.build_timestamp ≥ x.build_timestamp then r :: x :: xs
      else x :: insertDesc r xs

/-- `get_last_package_built` (db.py lines 47-61): `SELECT package FROM builds
ORDER BY build_timestamp DESC LIMIT 1`, then `fetchone()` and `result[0]`.
With no rows, `fetchone()` returns `None` and `result[0]` raises; the raise
is embedded as `none`. -/
def get_last_package_built (s : DBState) : Option String :=
  match (sortByTimestampDesc s.builds).head? with
  | none => none
  | some r => some r.package

/-- `_get_packages_by_build_status` with its default `None` argument, i.e. the
first, shadowed definition of `get_all_packages` (db.py lines 63-84):
`SELECT package FROM builds WHERE 1 ORDER BY package`. -/
def get_all_packages_shadowed (s : DBState) : List String :=
  ((s.builds.map (fun r => r.package)).mergeSort (fun a b => decide (a ≤ b)))

/-- `get_all_packages` (db.py lines 155-164), the second definition of the
name, which shadows the first: `SELECT package FROM packages`. -/
def get_all_packages (s : DBState) : List String :=
  s.packages.map (fun r => r.package)

/-- `add_new_package` (db.py lines 129-140): `INSERT INTO packages VALUES
(%s, %s)` followed by commit, with no conflict handling.  `package` is the
primary key of `packages` (spec section 6), so inserting a duplicate raises
`IntegrityError`, embedded as `Except.error`. -/
def add_new_package (s : DBState) (package : String) (attempted : Bool) :
    Except String DBState :=
  if s.packages.any (fun r => r.package == package) then
    Except.error "IntegrityError: duplicate key value violates unique constraint"
  else
    Except.ok { s with packages := s.packages ++ [⟨package, attempted⟩] }

/-- `build_active` (db.py lines 194-205): `SELECT value FROM metadata WHERE
key = 'active'`, then `fetchone()` and `result[0]`.  With no matching row the
subscript raises; the raise is embedded as `none`. -/
def build_active (s : DBState) : Option String :=
  match (s.metadata.filter (fun kv => kv.1 == "active")).head? with
  | none => none
  | some kv => some kv.2

/-! ## Slave state machine (piwheels/slave/__init__.py)

The slave main loop keeps `slave_id` (set by the HELLO reply) and `builder`
(the current build, if any), sends a request, receives a reply and dispatches
on its verb; `assert` failures raise, the BYE reply breaks the loop, and the
`finally` block always sends a final BYE request.  The build executor
(`PiWheelsBuilder`) is an external collaborator (spec section 1, out of
scope); it is a parameter `buildFn` giving the outcome of `builder.build()`,
while `builder.package` / `builder.version` are the constructor arguments. -/

structure FileRec where
  filename : String
  filesize : Nat
  filehash : String
  package_version_tag : String
  py_version_tag : String
  abi_tag : String
  platform_tag : String
deriving Repr, DecidableEq

structure BuildOutcome where
  status : Bool
  duration : Nat
  output : String
  files : List FileRec
deriving Repr, DecidableEq

structure Builder where
  package : String
  version : String
  status : Bool
  duration : Nat
  output : String
  files : List FileRec
deriving Repr, DecidableEq

/-- The 6-tuple stored per filename in the BUILT message dict:
`(filesize, filehash, package_version_tag, py_version_tag, abi_tag,
platform_tag)`. -/
def FileTuple : Type := Nat × String × String × String × String × String

instance : DecidableEq FileTuple := by
  unfold FileTuple
  infer_instance

/-- Replies the master can send on the req/rep channel. `other` stands for
any verb outside the protocol (the final `else: assert False` branch). -/
inductive Reply where
  | hello (id : Nat)
  | sleep
  | build (pkg ver : String)
  | send (filename : String)
  | done
  | bye
  | other (verb : String)
deriving Repr, DecidableEq

/-- Requests the slave sends on the req/rep channel. -/
inductive Request where
  | hello
  | idle
  | built (package version : String) (status : Bool) (duration : Nat)
      (output : String) (files : List (String × FileTuple))
  | sent
  | bye
deriving DecidableEq

structure SlaveState where
  slave_id : Option Nat
  builder : Option Builder
deriving Repr, DecidableEq

/-- Result of handling one reply: continue with a new state and next request,
break out of the loop (BYE reply), or raise (a failed `assert` or the
`IndexError` from indexing an empty list). -/
inductive StepResult where
  | next (st : SlaveState) (req : Request)
  | halt
  | fail (msg : String)
deriving DecidableEq

/-- The dict comprehension building the BUILT message's file mapping. -/
def filesMapping (files : List FileRec) : List (String × FileTuple) :=
  files.map (fun f =>
    (f.filename,
      (f.filesize, f.filehash, f.package_version_tag, f.py_version_tag,
       f.abi_tag, f.platform_tag)))

/-- `PiWheelsBuilder(package, version)` followed by `builder.build()`: the
constructor stores the package and version, the build fills in status,
duration, output and files. -/
def mkBuilder (pkg ver : String) (o : BuildOutcome) : Builder :=
  { package := pkg, version := ver, status := o.status,
    duration := o.duration, output := o.output, files := o.files }

/-- One iteration of the slave main loop body (slave/__init__.py lines
34-102): dispatch on the received reply.  Assertion order follows the
source; arity assertions are inherent in the typed message constructors. -/
def step (buildFn : String → String → BuildOutcome) (st : SlaveState)
    (reply : Reply) : StepResult :=
  match reply with
  | .hello id =>
    match st.slave_id with
    | some _ => .fail "Duplicate hello"
    | none => .next { st with slave_id := some id } .idle
  | .sleep =>
    match st.slave_id with
    | none => .fail "Sleep before hello"
    | some _ => .next st .idle
  | .build pkg ver =>
    match st.slave_id, st.builder with
    | none, _ => .fail "Build before hello"
    | some _, some _ => .fail "Last build still exists"
    | some _, none =>
      let b : Builder := mkBuilder pkg ver (buildFn pkg ver)
      .next { st with builder := some b }
        (.built b.package b.version b.status b.duration b.output
          (filesMapping b.files))
  | .send fname =>
    match st.slave_id, st.builder with
    | none, _ => .fail "Send before hello"
    | some _, none => .fail "Send before build / after failed build"
    | some _, some b =>
      if b.status then
        match (b.files.filter (fun f => f.filename == fname)).head? with
        | none => .fail "IndexError: list index out of range"
        | some _ => .next st .sent
      else .fail "Send after failed build"
  | .done =>
    match st.slave_id, st.builder with
    | none, _ => .fail "Okay before hello"
    | some _, none => .fail "Okay before build"
    | some _, some _ => .next { st with builder := none } .idle
  | .bye => .halt
  | .other _ => .fail "Invalid message from master"

/-- Run the main loop against a finite list of master replies, returning the
sequence of requests the slave sent.  The request pending at the top of the
loop is sent before each receive; on a BYE reply (break) or a raise, the
`finally` block sends one final BYE.  `none` means the replies ran out with
the slave still blocked in `recv`, i.e. the session has not ended. -/
def runAux (buildFn : String → String → BuildOutcome) :
    List Reply → SlaveState → Request → Option (List Request)
  | [], _, _ => none
  | r :: rs, st, req =>
    match step buildFn st r with
    | .next st2 req2 => (runAux buildFn rs st2 req2).map (fun tr => req :: tr)
    | .halt => some [req, .bye]
    | .fail _ => some [req, .bye]

/-- A whole slave session: fresh state, initial request HELLO. -/
def runSession (buildFn : String → String → BuildOutcome)
    (replies : List Reply) : Option (List Request) :=
  runAux buildFn replies { slave_id := none, builder := none } .hello

/-! ## File transfer (piwheels/slave/__init__.py, transfer method) -/

/-- Multipart frames of the upload channel, with the ASCII offset/size frames
parsed to naturals and the payload as a byte list. -/
inductive UploadMsg where
  | hello (id : Nat)
  | fetch (offset size : Nat)
  | chunk (offset : Nat) (payload : List Nat)
  | done
deriving Repr, DecidableEq

/-- The FETCH branch of `transfer` (lines 128-131): `f.seek(offset)` then
`f.read(size)` — the bytes of the file from `offset`, at most `size` of
them — sent back as `CHUNK` with the received offset frame. -/
def transfer_reply (file : List Nat) (offset size : Nat) : UploadMsg :=
  .chunk offset ((file.drop offset).take size)

/-! ## Index Scribe (piwheels/master/index_scribe.py — not in the sources)

Modelled from the spec: the Index Scribe module itself is absent from the
repository snapshot (only its test suite is present), so the HOME and SEARCH
handlers below follow spec sections 4.7 and 7: `HOME stats` renders
`index.html` from the fields `packages_built`, `files_count`,
`downloads_last_month` (a missing field is a KeyError-class failure and the
file is not written); `SEARCH` writes `packages.json` as an array of
`[name, count]` pairs (a non-serializable value is a TypeError-class
failure and the file is not written).  Every write is atomic: the content
is produced in full before it replaces the target, so a failed handler
leaves the filesystem unchanged. -/

inductive PyVal where
  | int (n : Int)
  | str (s : String)
  | cplx (re im : Int)
deriving Repr, DecidableEq

inductive Json where
  | num (n : Int)
  | str (s : String)
  | arr (xs : List Json)
deriving Repr

/-- Modelled from the spec: JSON serialization of a Python value; `complex`
is not serializable (`json.dump` raises TypeError). -/
def serializePyVal : PyVal → Option Json
  | .int n => some (.num n)
  | .str s => some (.str s)
  | .cplx _ _ => none

/-- Modelled from the spec: each `(name, count)` pair becomes the two-element
array `[name, count]`; the first non-serializable value fails the whole
serialization. -/
def serializeEntries : List (String × PyVal) → Option (List Json)
  | [] => some []
  | e :: rest =>
    match serializePyVal e.2, serializeEntries rest with
    | some j, some js => some (Json.arr [Json.str e.1, j] :: js)
    | _, _ => none

def searchToJson (entries : List (String × PyVal)) : Option Json :=
  (serializeEntries entries).map Json.arr

/-- Parsing direction, used to state the SEARCH round trip. -/
def decodeJson : Json → Option PyVal
  | .num n => some (.int n)
  | .str s => some (.str s)
  | .arr _ => none

def decodeEntry : Json → Option (String × PyVal)
  | .arr [.str k, j] => (decodeJson j).map (fun v => (k, v))
  | _ => none

def decodeEntries : List Json → Option (List (String × PyVal))
  | [] => some []
  | j :: js =>
    match decodeEntry j, decodeEntries js with
    | some e, some es => some (e :: es)
    | _, _ => none

def decodeSearch : Json → Option (List (String × PyVal))
  | .arr js => decodeEntries js
  | _ => none

inductive FileContent where
  | text (s : String)
  | json (j : Json)

/-- The output tree as an association list from path to content; a write
shadows any previous entry for the path. -/
def FS : Type := List (String × FileContent)

def fsWrite (fs : FS) (path : String) (c : FileContent) : FS :=
  (path, c) :: fs

def fsRead (fs : FS) (path : String) : Option FileContent :=
  match fs with
  | [] => none
  | (p, c) :: rest => if p == path then some c else fsRead rest path

/-- Modelled from the spec: textual rendering of a stats value into the
homepage template. -/
def pyValText : PyVal → String
  | .int n => toString n
  | .str s => s
  | .cplx re im => toString re ++ "+" ++ toString im ++ "j"

/-- Modelled from the spec: the homepage template with the three stats
fields substituted. -/
def renderHomepage (pb fc dlm : PyVal) : String :=
  "packages_built=" ++ pyValText pb ++ " files_count=" ++ pyValText fc ++
    " downloads_last_month=" ++ pyValText dlm

/-- Messages of the scribe's index queue used by these claims. -/
inductive IndexMsg where
  | home (stats : List (String × PyVal))
  | search (entries : List (String × PyVal))

/-- Modelled from the spec: the HOME handler.  Each required field is looked
up in the stats mapping; a missing field raises KeyError before anything is
renamed over `index.html`. -/
def write_homepage (fs : FS) (stats : List (String × PyVal)) :
    Except String FS :=
  match stats.lookup "packages_built", stats.lookup "files_count",
      stats.lookup "downloads_last_month" with
  | some pb, some fc, some dlm =>
    .ok (fsWrite fs "index.html" (.text (renderHomepage pb fc dlm)))
  | _, _, _ => .error "KeyError"

/-- Modelled from the spec: the SEARCH handler.  The whole array is
serialized before it is renamed over `packages.json`; a non-serializable
value raises TypeError and nothing is published. -/
def write_search_index (fs : FS) (entries : List (String × PyVal)) :
    Except String FS :=
  match searchToJson entries with
  | some j => .ok (fsWrite fs "packages.json" (.json j))
  | none => .error "TypeError"

/-- Modelled from the spec: one index-queue message handled by the scribe
task; a raised error leaves the output tree as it was. -/
def scribeStep (fs : FS) : IndexMsg → FS × Option String
  | .home stats =>
    match write_homepage fs stats with
    | .ok fs2 => (fs2, none)
    | .error e => (fs, some e)
  | .search entries =>
    match write_search_index fs entries with
    | .ok fs2 => (fs2, none)
    | .error e => (fs, some e)

/-! ## Theorems -/

/-- C1: the effective `get_all_packages` (the second definition of the name,
which shadows the first) answers ALLPKGS with exactly the set of distinct
`packages.package` values, and its result does not depend on the `builds`
table (or on `metadata`). -/
theorem allpkgs_matches_packages_table (s : DBState) :
    (get_all_packages s).toFinset =
      (s.packages.map (fun r => r.package)).toFinset ∧
    ∀ (builds2 : List BuildRow) (md2 : List (String × String)),
      get_all_packages
          { packages := s.packages, builds := builds2, metadata := md2 } =
        get_all_packages s :=
  ⟨rfl, fun _ _ => rfl⟩

/-- C2: `add_new_package` is not idempotent.  On an empty `packages` table,
inserting package `foo` succeeds, but re-executing the same insert violates
the primary key on `packages.package` and raises `IntegrityError` (surfacing
as `ERR`, not `OK`), contradicting the required idempotency of NEWPKG. -/
theorem add_new_package_not_idempotent :
    add_new_package { packages := [], builds := [], metadata := [] } "foo"
        false =
      Except.ok
        { packages := [{ package := "foo", attempted := false }],
          builds := [], metadata := [] } ∧
    add_new_package
        { packages := [{ package := "foo", attempted := false }],
          builds := [], metadata := [] } "foo" false =
      Except.error
        "IntegrityError: duplicate key value violates unique constraint" :=
  ⟨rfl, rfl⟩

/-- Counting helper for C9: on rows whose status is a non-NULL boolean, the
success count and the failure count partition the row count. -/
theorem countP_status_partition (l : List BuildRow)
    (h : ∀ r ∈ l, r.status = some true ∨ r.status = some false) :
    l.countP (fun r => match r.status with | some true => true | _ => false) +
      l.countP
        (fun r => match r.status with | some false => true | _ => false) =
      l.length := by
  induction l with
  | nil => simp
  | cons a t ih =>
    have ha := h a (List.mem_cons_self a t)
    have ht := ih (fun r hr => h r (List.mem_cons_of_mem a hr))
    rcases ha with ha | ha <;> simp [List.countP_cons, ha] <;> omega

/-- C9: when every build row carries a non-NULL boolean status,
`get_package_summary` returns (success, fail, total) with success the number
of true rows, fail the number of false rows, and success + fail = total, the
row count of `builds`. -/
theorem package_summary_partition (s : DBState)
    (h : ∀ r ∈ s.builds, r.status = some true ∨ r.status = some false) :
    (get_package_summary s).1 =
      s.builds.countP
        (fun r => match r.status with | some true => true | _ => false) ∧
    (get_package_summary s).2.1 =
      s.builds.countP
        (fun r => match r.status with | some false => true | _ => false) ∧
    (get_package_summary s).1 + (get_package_summary s).2.1 =
      (get_package_summary s).2.2 ∧
    (get_package_summary s).2.2 = s.builds.length :=
  ⟨rfl, rfl, countP_status_partition s.builds h, rfl⟩

def sampleSummaryState : DBState :=
  { packages := []
  , builds :=
      [ { build_timestamp := 0, package := "foo", status := some true,
          build_time := 60, filesize := 100 }
      , { build_timestamp := 1, package := "bar", status := some false,
          build_time := 30, filesize := 200 }
      , { build_timestamp := 2, package := "baz", status := some true,
          build_time := 10, filesize := 300 } ]
  , metadata := [] }

/-- C9 witness: a concrete builds table with two successes and one failure. -/
theorem package_summary_partition_witness :
    (∀ r ∈ sampleSummaryState.builds,
      r.status = some true ∨ r.status = some false) ∧
    ((get_package_summary sampleSummaryState).1 =
      sampleSummaryState.builds.countP
        (fun r => match r.status with | some true => true | _ => false) ∧
    (get_package_summary sampleSummaryState).2.1 =
      sampleSummaryState.builds.countP
        (fun r => match r.status with | some false => true | _ => false) ∧
    (get_package_summary sampleSummaryState).1 +
        (get_package_summary sampleSummaryState).2.1 =
      (get_package_summary sampleSummaryState).2.2 ∧
    (get_package_summary sampleSummaryState).2.2 =
      sampleSummaryState.builds.length) :=
  ⟨by decide, package_summary_partition sampleSummaryState (by decide)⟩

/-- C10: with no matching row, `fetchone()` yields no row and the subscript
`result[0]` raises, so `get_last_package_built` (empty `builds`) and
`build_active` (no `active` key in `metadata`) fail rather than return a
value: both are partial at the public interface. -/
theorem fetchone_subscript_raises (s : DBState) :
    (s.builds = [] → get_last_package_built s = none) ∧
    ((∀ kv ∈ s.metadata, kv.1 ≠ "active") → build_active s = none) := by
  constructor
  · intro h
    simp [get_last_package_built, sortByTimestampDesc, h]
  · intro h
    have hfil : s.metadata.filter (fun kv => kv.1 == "active") = [] := by
      refine List.filter_eq_nil_iff.mpr ?_
      intro kv hkv
      simpa using h kv hkv
    simp [build_active, hfil]

/-- C10 witness: an empty builds table and a metadata table without the
`active` key. -/
theorem fetchone_subscript_raises_witness :
    get_last_package_built
        { packages := [], builds := [], metadata := [("skip", "1")] } =
      none ∧
    build_active
        { packages := [], builds := [], metadata := [("skip", "1")] } =
      none :=
  ⟨(fetchone_subscript_raises _).1 rfl,
   (fetchone_subscript_raises _).2 (by decide)⟩

/-- C7: for a FETCH with offset and size within the file, the slave replies
CHUNK with the same offset and exactly the `size` bytes of the file starting
at `offset`. -/
theorem transfer_fetch_exact (file : List Nat) (offset size : Nat)
    (h : offset + size ≤ file.length) :
    transfer_reply file offset size =
      UploadMsg.chunk offset ((file.drop offset).take size) ∧
    ((file.drop offset).take size).length = size ∧
    ∀ i, i < size →
      ((file.drop offset).take size)[i]? = file[offset + i]? := by
  refine ⟨rfl, ?_, ?_⟩
  · rw [List.length_take, List.length_drop]
    omega
  · intro i hi
    rw [List.getElem?_take_of_lt hi, List.getElem?_drop]

/-- C7 witness: a four-byte file, offset 1, size 2. -/
theorem transfer_fetch_exact_witness :
    1 + 2 ≤ List.length [10, 20, 30, 40] ∧
    (transfer_reply [10, 20, 30, 40] 1 2 =
      UploadMsg.chunk 1 (([10, 20, 30, 40].drop 1).take 2) ∧
    (([10, 20, 30, 40].drop 1).take 2).length = 2 ∧
    ∀ i, i < 2 →
      (([10, 20, 30, 40].drop 1).take 2)[i]? =
        [10, 20, 30, 40][1 + i]?) :=
  ⟨by decide, transfer_fetch_exact [10, 20, 30, 40] 1 2 (by decide)⟩

def sampleFile : FileRec :=
  { filename := "foo-0.1-cp34-cp34m-linux_armv7l.whl"
  , filesize := 123456
  , filehash := "123456abcdef"
  , package_version_tag := "0.1"
  , py_version_tag := "cp34"
  , abi_tag := "cp34m"
  , platform_tag := "linux_armv7l" }

def sampleOutcome : BuildOutcome :=
  { status := true, duration := 300, output := "log", files := [sampleFile] }

def sampleBuildFn : String → String → BuildOutcome := fun _ _ => sampleOutcome

def sampleBuilder : Builder :=
  { package := "foo", version := "0.1", status := true, duration := 300,
    output := "log", files := [sampleFile] }

/-- C5: a registered slave (`slave_id` assigned) with no build in progress
that receives `BUILD pkg ver` performs the build and its next request is a
BUILT message carrying exactly the built package, version, status, duration,
output log, and the mapping from each produced filename to the tuple
(filesize, filehash, package_version_tag, py_version_tag, abi_tag,
platform_tag). -/
theorem build_reply_produces_built
    (buildFn : String → String → BuildOutcome) (st : SlaveState)
    (pkg ver : String) (i : Nat)
    (hid : st.slave_id = some i) (hb : st.builder = none) :
    step buildFn st (.build pkg ver) =
      .next
        { st with builder := some (mkBuilder pkg ver (buildFn pkg ver)) }
        (.built pkg ver (buildFn pkg ver).status (buildFn pkg ver).duration
          (buildFn pkg ver).output (filesMapping (buildFn pkg ver).files)) := by
  obtain ⟨sid, bld⟩ := st
  dsimp only at hid hb
  subst hid hb
  rfl

/-- C5 witness: a concrete build of (foo, 0.1) producing one file. -/
theorem build_reply_produces_built_witness :
    SlaveState.slave_id { slave_id := some 1, builder := none } = some 1 ∧
    SlaveState.builder { slave_id := some 1, builder := none } = none ∧
    step sampleBuildFn { slave_id := some 1, builder := none }
        (.build "foo" "0.1") =
      .next { slave_id := some 1, builder := some sampleBuilder }
        (.built "foo" "0.1" true 300 "log"
          [("foo-0.1-cp34-cp34m-linux_armv7l.whl",
            (123456, "123456abcdef", "0.1", "cp34", "cp34m",
             "linux_armv7l"))]) :=
  ⟨rfl, rfl,
   build_reply_produces_built sampleBuildFn
     { slave_id := some 1, builder := none } "foo" "0.1" 1 rfl rfl⟩

/-- C8: under the protocol precondition — slave registered, current builder
present and successful, and the requested filename among the builder's
produced files — the SEND handler succeeds: every assertion holds, the
filename lookup is non-empty so the `[0]` index succeeds, and the next
request is SENT. -/
theorem send_handler_succeeds
    (buildFn : String → String → BuildOutcome) (st : SlaveState)
    (b : Builder) (i : Nat) (fname : String)
    (hid : st.slave_id = some i) (hb : st.builder = some b)
    (hst : b.status = true)
    (hf : fname ∈ b.files.map (fun f => f.filename)) :
    step buildFn st (.send fname) = .next st .sent := by
  obtain ⟨sid, bld⟩ := st
  dsimp only at hid hb
  subst hid hb
  obtain ⟨f, hfmem, hfeq⟩ := List.mem_map.mp hf
  cases hfil : b.files.filter (fun f => f.filename == fname) with
  | nil =>
    exfalso
    have : f ∈ b.files.filter (fun f => f.filename == fname) :=
      List.mem_filter.mpr ⟨hfmem, by simp [hfeq]⟩
    simp [hfil] at this
  | cons hd tl =>
    simp [step, hst, hfil]

/-- C8 witness: the builder of the C5 witness and the filename it produced. -/
theorem send_handler_succeeds_witness :
    SlaveState.slave_id { slave_id := some 1, builder := some sampleBuilder } =
      some 1 ∧
    SlaveState.builder { slave_id := some 1, builder := some sampleBuilder } =
      some sampleBuilder ∧
    sampleBuilder.status = true ∧
    "foo-0.1-cp34-cp34m-linux_armv7l.whl" ∈
      sampleBuilder.files.map (fun f => f.filename) ∧
    step sampleBuildFn { slave_id := some 1, builder := some sampleBuilder }
        (.send "foo-0.1-cp34-cp34m-linux_armv7l.whl") =
      .next { slave_id := some 1, builder := some sampleBuilder } .sent :=
  ⟨rfl, rfl, rfl, by decide,
   send_handler_succeeds sampleBuildFn
     { slave_id := some 1, builder := some sampleBuilder } sampleBuilder 1
     "foo-0.1-cp34-cp34m-linux_armv7l.whl" rfl rfl rfl (by decide)⟩

/-- Session trace invariant behind C6: whatever state and pending request the
loop is in, a terminating run sends that pending request first and BYE
last. -/
theorem runAux_head_last (buildFn : String → String → BuildOutcome) :
    ∀ (rs : List Reply) (st : SlaveState) (req : Request)
      (tr : List Request),
      runAux buildFn rs st req = some tr →
      tr.head? = some req ∧ tr.getLast? = some Request.bye := by
  intro rs
  induction rs with
  | nil =>
    intro st req tr h
    simp [runAux] at h
  | cons r rest ih =>
    intro st req tr h
    unfold runAux at h
    split at h
    · rename_i st2 req2 heq
      cases hrec : runAux buildFn rest st2 req2 with
      | none => rw [hrec] at h; simp at h
      | some tr2 =>
        rw [hrec] at h
        simp at h
        subst h
        obtain ⟨h1, h2⟩ := ih st2 req2 tr2 hrec
        refine ⟨rfl, ?_⟩
        cases tr2 with
        | nil => simp at h1
        | cons x xs => simpa [List.getLast?_cons_cons] using h2
    · simp at h
      subst h
      exact ⟨rfl, rfl⟩
    · simp at h
      subst h
      exact ⟨rfl, rfl⟩

/-- C6: in every terminating slave session on the req/rep channel — master
requested termination (BYE reply) or termination by a raised assertion — the
first request sent is HELLO and the last request sent before the socket
closes is BYE. -/
theorem session_hello_first_bye_last
    (buildFn : String → String → BuildOutcome) (replies : List Reply)
    (tr : List Request) (h : runSession buildFn replies = some tr) :
    tr.head? = some Request.hello ∧ tr.getLast? = some Request.bye :=
  runAux_head_last buildFn replies
    { slave_id := none, builder := none } .hello tr h

/-- C6 witness: a session the master terminates immediately. -/
theorem session_hello_first_bye_last_witness :
    runSession sampleBuildFn [Reply.bye] =
      some [Request.hello, Request.bye] ∧
    ([Request.hello, Request.bye].head? = some Request.hello ∧
     [Request.hello, Request.bye].getLast? = some Request.bye) :=
  ⟨rfl, session_hello_first_bye_last sampleBuildFn [Reply.bye]
    [Request.hello, Request.bye] rfl⟩

/-- Serialization helper for C3: one non-serializable value anywhere in the
entries fails the whole serialization. -/
theorem serializeEntries_eq_none {entries : List (String × PyVal)}
    {e : String × PyVal} (he : e ∈ entries)
    (h : serializePyVal e.2 = none) :
    serializeEntries entries = none := by
  induction entries with
  | nil => simp at he
  | cons a t ih =>
    rcases List.mem_cons.mp he with rfl | hmem
    · simp [serializeEntries, h]
    · rw [serializeEntries, ih hmem]
      cases serializePyVal a.2 <;> rfl

/-- C3: index writes are atomic on error.  A HOME message whose stats mapping
misses one of the required fields raises a KeyError-class failure and leaves
the tree untouched (index.html not written); a SEARCH message containing a
non-serializable value raises a TypeError-class failure, leaves the tree
untouched, and packages.json is absent afterwards when it was absent
before.  No partial file is published in either case. -/
theorem scribe_error_atomic :
    (∀ (fs : FS) (stats : List (String × PyVal)),
      (stats.lookup "packages_built" = none ∨
       stats.lookup "files_count" = none ∨
       stats.lookup "downloads_last_month" = none) →
      scribeStep fs (.home stats) = (fs, some "KeyError")) ∧
    (∀ (fs : FS) (entries : List (String × PyVal)),
      (∃ e ∈ entries, serializePyVal e.2 = none) →
      scribeStep fs (.search entries) = (fs, some "TypeError") ∧
      (fsRead fs "packages.json" = none →
        fsRead (scribeStep fs (.search entries)).1 "packages.json" =
          none)) := by
  constructor
  · intro fs stats hmiss
    have hkey : write_homepage fs stats = .error "KeyError" := by
      unfold write_homepage
      rcases h1 : stats.lookup "packages_built" with _ | pb <;>
        rcases h2 : stats.lookup "files_count" with _ | fc <;>
          rcases h3 : stats.lookup "downloads_last_month" with _ | dlm <;>
            simp_all
    simp [scribeStep, hkey]
  · intro fs entries hbad
    obtain ⟨e, he, hser⟩ := hbad
    have hnone : serializeEntries entries = none :=
      serializeEntries_eq_none he hser
    have htype : write_search_index fs entries = .error "TypeError" := by
      unfold write_search_index searchToJson
      rw [hnone]
      rfl
    constructor
    · simp [scribeStep, htype]
    · intro habs
      simp [scribeStep, htype, habs]

/-- C3 witness: an empty stats mapping and a search list whose second count
is a complex number, against an empty output tree. -/
theorem scribe_error_atomic_witness :
    scribeStep ([] : FS) (.home []) = (([] : FS), some "KeyError") ∧
    (scribeStep ([] : FS)
        (.search [("foo", PyVal.int 10), ("bar", PyVal.cplx 1 2)]) =
      (([] : FS), some "TypeError") ∧
    (fsRead ([] : FS) "packages.json" = none →
      fsRead
          (scribeStep ([] : FS)
            (.search
              [("foo", PyVal.int 10), ("bar", PyVal.cplx 1 2)])).1
          "packages.json" = none)) :=
  ⟨scribe_error_atomic.1 [] [] (Or.inl rfl),
   scribe_error_atomic.2 [] [("foo", PyVal.int 10), ("bar", PyVal.cplx 1 2)]
     ⟨("bar", PyVal.cplx 1 2), by simp, rfl⟩⟩

/-- Round-trip helper for C4: decoding inverts value serialization. -/
theorem decodeJson_serializePyVal (v : PyVal) (j : Json)
    (h : serializePyVal v = some j) : decodeJson j = some v := by
  cases v with
  | int n =>
    simp [serializePyVal] at h
    subst h
    rfl
  | str s =>
    simp [serializePyVal] at h
    subst h
    rfl
  | cplx re im => simp [serializePyVal] at h

/-- Round-trip helper for C4: decoding inverts entry-list serialization,
preserving order. -/
theorem decodeEntries_serializeEntries :
    ∀ (entries : List (String × PyVal)) (js : List Json),
      serializeEntries entries = some js →
      decodeEntries js = some entries := by
  intro entries
  induction entries with
  | nil =>
    intro js h
    simp [serializeEntries] at h
    subst h
    rfl
  | cons e t ih =>
    intro js h
    unfold serializeEntries at h
    cases hs : serializePyVal e.2 with
    | none => rw [hs] at h; simp at h
    | some j =>
      rw [hs] at h
      cases ht : serializeEntries t with
      | none => rw [ht] at h; simp at h
      | some ts =>
        rw [ht] at h
        simp at h
        subst h
        show decodeEntries (Json.arr [Json.str e.1, j] :: ts) = some (e :: t)
        unfold decodeEntries
        have hde : decodeEntry (Json.arr [Json.str e.1, j]) =
            (decodeJson j).map (fun v => (e.1, v)) := rfl
        rw [show decodeEntry (Json.arr [Json.str e.1, j]) = some e by
          rw [hde, decodeJson_serializePyVal e.2 j hs]
          rfl]
        rw [ih ts ht]

/-- C4: SEARCH round-trips.  For a list of serializable (name, count)
entries, the SEARCH handler succeeds, writes packages.json as the array of
two-element arrays [name, count] in entry order, and decoding the written
JSON yields exactly the original list. -/
theorem search_roundtrip (fs : FS) (entries : List (String × PyVal))
    (h : ∀ e ∈ entries, (serializePyVal e.2).isSome) :
    ∃ js : List Json,
      serializeEntries entries = some js ∧
      scribeStep fs (.search entries) =
        (fsWrite fs "packages.json" (.json (.arr js)), none) ∧
      fsRead (scribeStep fs (.search entries)).1 "packages.json" =
        some (.json (.arr js)) ∧
      decodeSearch (.arr js) = some entries := by
  have hse : ∃ js, serializeEntries entries = some js := by
    induction entries with
    | nil => exact ⟨[], rfl⟩
    | cons e t ih =>
      have he := h e (List.mem_cons_self e t)
      obtain ⟨j, hj⟩ := Option.isSome_iff_exists.mp he
      obtain ⟨js, hjs⟩ := ih (fun x hx => h x (List.mem_cons_of_mem e hx))
      refine ⟨Json.arr [Json.str e.1, j] :: js, ?_⟩
      simp [serializeEntries, hj, hjs]
  obtain ⟨js, hjs⟩ := hse
  have hok : write_search_index fs entries =
      .ok (fsWrite fs "packages.json" (.json (.arr js))) := by
    unfold write_search_index searchToJson
    rw [hjs]
    rfl
  refine ⟨js, hjs, ?_, ?_, ?_⟩
  · simp [scribeStep, hok]
  · simp [scribeStep, hok, fsWrite, fsRead]
  · simpa [decodeSearch] using decodeEntries_serializeEntries entries js hjs

/-- C4 witness: the search list of the test suite, two integer counts. -/
theorem search_roundtrip_witness :
    (∀ e ∈ ([("foo", PyVal.int 10), ("bar", PyVal.int 1)] :
        List (String × PyVal)), (serializePyVal e.2).isSome) ∧
    ∃ js : List Json,
      serializeEntries [("foo", PyVal.int 10), ("bar", PyVal.int 1)] =
        some js ∧
      scribeStep ([] : FS)
          (.search [("foo", PyVal.int 10), ("bar", PyVal.int 1)]) =
        (fsWrite ([] : FS) "packages.json" (.json (.arr js)), none) ∧
      fsRead
          (scribeStep ([] : FS)
            (.search [("foo", PyVal.int 10), ("bar", PyVal.int 1)])).1
          "packages.json" = some (.json (.arr js)) ∧
      decodeSearch (.arr js) =
        some [("foo", PyVal.int 10), ("bar", PyVal.int 1)] :=
  ⟨by decide,
   search_roundtrip ([] : FS) [("foo", PyVal.int 10), ("bar", PyVal.int 1)]
     (by decide)⟩

end PiWheels
